import Mathlib

/-!
Verification of the NBOS-Web charter gate and synergy orchestrator.

Shallow embedding of `src/charter/charter.py` (CharterLayer and its five
principle checks) and `src/synergy_engine/core.py` (SynergyEngine.process and
detect_alignment_drift), followed by theorems about the embedded definitions.

Modelling conventions:
- Python strings are Lean `String`s; the substring operator `in` is modelled by
  an explicit character-list scan (`occursIn`).
- A candidate output is structurally untyped in Python (string, mapping, or
  attribute-bearing object).  The charter checks only ever inspect: whether the
  candidate is a string (and then its text), whether it is a mapping (and then
  key membership), and `hasattr` probes for a few attribute names.  The
  `Candidate` type records exactly that observable shape: the text of a string,
  the key set of a mapping, the attribute names of an object.
- The `context` dict is modelled by a structure holding the recognized keys with
  Python-truthiness collapsed to `Bool` (a missing key is the default `false`);
  `uncertainty_level` and `auto_escalate` only influence logging in the source,
  never a check result, and are carried for fidelity.
- Python floats are modelled by `ℚ`; `sum`/`len` over the principle-result dict
  becomes a count/length over an association list kept in iteration order.
- Exceptions become `Except`: `CharterViolationError` carries the violations
  list (the source embeds it in the message string).
-/

/-- Observable shape of a candidate output, as probed by the charter checks:
`text s` for `isinstance(output, str)` with content `s`; `dict keys` for a
mapping (the checks only test key membership); `obj attrs` for any other object
(the checks only test `hasattr` against `attrs`). -/
inductive Candidate where
  | text (s : String)
  | dict (keys : List String)
  | obj (attrs : List String)
deriving DecidableEq, Repr

/-- Python `hasattr output a` for the charter-relevant attribute names; Python strings
and dicts do not expose `confidence`/`uncertainty`/`reasoning`/`explanation`
attributes, so only `obj` candidates can answer true. -/
def Candidate.hasattr : Candidate → String → Bool
  | .obj attrs, a => attrs.contains a
  | _, _ => false

/-- Python `isinstance(output, dict) and key in output`. -/
def Candidate.dictHasKey : Candidate → String → Bool
  | .dict keys, k => keys.contains k
  | _, _ => false

/-- The recognized optional context keys of `charter.py` / `core.py`, with
Python truthiness collapsed to `Bool` (absent key = default).  `user_id` is
`true` exactly when the context holds a truthy `user_id` value. -/
structure Context where
  user_id : Bool := false
  requires_consent : Bool := false
  consent_given : Bool := false
  is_complex_decision : Bool := false
  uncertainty_level : ℚ := 0
  auto_escalate : Bool := true
  safety_discussion : Bool := false
  apply_dp : Bool := false
deriving DecidableEq, Repr

/-- Tests that `p` is a prefix of `s` (character lists, `==` on chars). -/
def leadsWith : List Char → List Char → Bool
  | [], _ => true
  | _ :: _, [] => false
  | a :: p, b :: s => a == b && leadsWith p s

/-- Python's substring test `p in s` on character lists. -/
def occursIn (p : List Char) : List Char → Bool
  | [] => p.isEmpty
  | b :: s => leadsWith p (b :: s) || occursIn p s

/-- Python's `needle in hay` for strings. -/
def strContains (hay needle : String) : Bool :=
  occursIn needle.toList hay.toList

/-- Python's `str.lower()` (ASCII range, which covers every charter keyword),
defined by structural recursion over the character list so that concrete
evaluations reduce. -/
def lowerStr (s : String) : String :=
  String.mk (s.toList.map Char.toLower)

/-- The `deception_markers` list of `_check_honesty`. -/
def deception_markers : List String :=
  ["guaranteed", "definite", "absolutely certain", "impossible"]

/-- Translation of `CharterLayer._check_honesty`: passes when the candidate exposes a
`confidence` or `uncertainty` attribute; otherwise a string candidate fails
when any deception marker occurs in its lowercased text. -/
def check_honesty (output : Candidate) (_ctx : Context) : Bool :=
  if output.hasattr "confidence" || output.hasattr "uncertainty" then
    true
  else
    match output with
    | .text s =>
        !(deception_markers.any fun m => strContains (lowerStr s) (lowerStr m))
    | _ => true

/-- The `sensitive_keywords` list of `_check_dignity`. -/
def sensitive_keywords : List String :=
  ["password", "ssn", "credit card", "private medical"]

/-- Translation of `CharterLayer._check_dignity`: a string candidate fails when a sensitive
keyword occurs in its lowercased text; afterwards the consent branch fails when
`user_id` is truthy, `requires_consent` is truthy and `consent_given` is not. -/
def check_dignity (output : Candidate) (ctx : Context) : Bool :=
  if (match output with
      | .text s => sensitive_keywords.any fun k => strContains (lowerStr s) k
      | _ => false) then
    false
  else if ctx.user_id && ctx.requires_consent && !ctx.consent_given then
    false
  else
    true

/-- The `protected_attributes` list of `_check_fairness`. -/
def protected_attributes : List String :=
  ["race", "gender", "religion", "disability", "age"]

/-- The `discriminatory_phrases` list of `_check_fairness`. -/
def discriminatory_phrases : List String :=
  ["should not", "incapable", "unfit", "inferior"]

/-- The nested loop of `_check_fairness`: for each discriminatory phrase found
in the lowercased text, scan the protected attributes and return `false` on the
first attribute also found; otherwise continue with the remaining phrases. -/
def fairnessScan (lower : String) (attrs : List String) : List String → Bool
  | [] => true
  | p :: ps =>
      if strContains lower p && attrs.any (fun a => strContains lower a) then
        false
      else
        fairnessScan lower attrs ps

/-- Translation of `CharterLayer._check_fairness`: only string candidates can fail, and only
via the nested phrase/attribute scan. -/
def check_fairness (output : Candidate) (_ctx : Context) : Bool :=
  match output with
  | .text s => fairnessScan (lowerStr s) protected_attributes discriminatory_phrases
  | _ => true

/-- Translation of `CharterLayer._check_transparency`: passes when the candidate exposes a
`reasoning`/`explanation` attribute or dict key; otherwise fails exactly when
`is_complex_decision` is truthy. -/
def check_transparency (output : Candidate) (ctx : Context) : Bool :=
  if output.hasattr "reasoning" || output.hasattr "explanation" then
    true
  else if output.dictHasKey "reasoning" || output.dictHasKey "explanation" then
    true
  else if ctx.is_complex_decision then
    false
  else
    true

/-- The `harmful_keywords` list of `_check_safety`. -/
def harmful_keywords : List String :=
  ["kill", "harm", "violence", "illegal", "exploit", "abuse"]

/-- Translation of `CharterLayer._check_safety`: a string candidate fails when a harmful
keyword occurs in its lowercased text and `safety_discussion` is not truthy.
The `uncertainty_level`/`auto_escalate` branch of the source only emits a log
warning and never changes the returned value, so it does not appear in the
result. -/
def check_safety (output : Candidate) (ctx : Context) : Bool :=
  match output with
  | .text s =>
      if (harmful_keywords.any fun k => strContains (lowerStr s) k)
          && !ctx.safety_discussion then
        false
      else
        true
  | _ => true

/-- Result of one principle check as seen by `verify_output`'s `try`/`except`:
either a boolean result or an internal fault raised by the predicate. -/
inductive CheckOutcome where
  | ok (b : Bool)
  | fault (msg : String)
deriving DecidableEq, Repr

/-- The `OutputVerification` record of `charter.py`: the record produced by one `verify`
call.  `principle_results` keeps the dict's insertion/iteration order;
`timestamp` is an abstract clock value supplied by the caller; `confidence` is
a rational standing for the Python float `sum(values)/len(values)`. -/
structure OutputVerification where
  passed : Bool
  principle_results : List (String × Bool)
  violations : List String
  timestamp : Nat
  confidence : ℚ
deriving DecidableEq, Repr

/-- The `CharterViolationError` raised on aggregate failure; the source interpolates
the violations list into the message, so the error carries that list. -/
structure CharterViolationError where
  violations : List String
deriving DecidableEq, Repr

/-- The `for principle, check_func in self.charter_rules.items()` loop body of
`verify_output`: record the boolean result (a fault counts as `false`,
fail-closed) and append `Violated: p` on a false result or `Check failed: p`
on a fault, in iteration order. -/
def runChecks : List (String × CheckOutcome) → List (String × Bool) × List String
  | [] => ([], [])
  | (name, o) :: rest =>
      let b : Bool := match o with
        | .ok b => b
        | .fault _ => false
      let v : List String := match o with
        | .ok true => []
        | .ok false => ["Violated: " ++ name]
        | .fault _ => ["Check failed: " ++ name]
      let (rs, vs) := runChecks rest
      ((name, b) :: rs, v ++ vs)

/-- Construction of the `OutputVerification` record from the loop results:
`passed = all(...)`, `confidence = sum(values)/len(values)`. -/
def mkVerification (items : List (String × CheckOutcome)) (ts : Nat) :
    OutputVerification :=
  let (results, violations) := runChecks items
  { passed := results.all (fun r => r.2)
    principle_results := results
    violations := violations
    timestamp := ts
    confidence := ((results.filter fun r => r.2).length : ℚ) / (results.length : ℚ) }

/-- The `CharterLayer` state: its append-only `verification_log`. -/
structure CharterLayer where
  verification_log : List OutputVerification
deriving DecidableEq, Repr

/-- State after `CharterLayer.__init__`: an empty verification log. -/
def CharterLayer.init : CharterLayer := ⟨[]⟩

/-- Core of `CharterLayer.verify_output`, parameterized by the outcomes of the
five checks: build the record, append it to the log (always, before the
pass/fail branch), then return the record or raise `CharterViolationError`. -/
def CharterLayer.verify_core (gate : CharterLayer)
    (items : List (String × CheckOutcome)) (ts : Nat) :
    CharterLayer × Except CharterViolationError OutputVerification :=
  let ver := mkVerification items ts
  let gate' : CharterLayer := ⟨gate.verification_log ++ [ver]⟩
  if ver.passed then (gate', .ok ver) else (gate', .error ⟨ver.violations⟩)

/-- The `charter_rules` dict in its insertion order, applied to one candidate
and context.  The five translated predicates are total, so each outcome is
`ok`; `verify_core` handles the `fault` case that the source's `except` arm
guards against. -/
def principleChecks (output : Candidate) (ctx : Context) :
    List (String × CheckOutcome) :=
  [("no_deception", .ok (check_honesty output ctx)),
   ("human_dignity", .ok (check_dignity output ctx)),
   ("fairness", .ok (check_fairness output ctx)),
   ("transparency", .ok (check_transparency output ctx)),
   ("safety", .ok (check_safety output ctx))]

/-- Translation of `CharterLayer.verify_output output context` at clock `ts`. -/
def CharterLayer.verify_output (gate : CharterLayer) (output : Candidate)
    (ctx : Context) (ts : Nat) :
    CharterLayer × Except CharterViolationError OutputVerification :=
  gate.verify_core (principleChecks output ctx) ts

/-- The `system_state` dict of `SynergyEngine.__init__`. -/
structure SystemState where
  alignment_score : ℚ
  coherence_level : ℚ
  ethical_drift_detected : Bool
  last_synthesis : Option Nat
deriving DecidableEq, Repr

/-- Initial system state: `alignment_score = 1.0`, `coherence_level = 1.0`,
no drift detected, `last_synthesis = None`. -/
def SystemState.init : SystemState :=
  { alignment_score := 1, coherence_level := 1,
    ethical_drift_detected := false, last_synthesis := none }

/-- The final output package that `process` stores on success (step 7):
the candidate package fields plus `charter_verified`, timestamp and bias
count.  The explanation payload itself comes from an external collaborator and
is abstracted to its `confidence` entry, the only part the core reads. -/
structure OutputPackage where
  prediction : ℚ
  confidence : Option ℚ
  task_id : String
  charter_verified : Bool
  timestamp : Nat
  biases_detected : Nat
deriving DecidableEq, Repr

/-- The `SynergyEngine` state: the gate it owns, the `active_tasks` map (an
association list with Python-dict overwrite semantics), the `system_state`
dict, and the inherited `audit_log` (entries abstracted to their event
strings). -/
structure SynergyEngine where
  charter_layer : CharterLayer
  active_tasks : List (String × OutputPackage)
  system_state : SystemState
  audit_log : List String
deriving DecidableEq, Repr

/-- Python dict assignment `m[k] = v`: overwrite any previous binding. -/
def updateTask (m : List (String × OutputPackage)) (k : String)
    (v : OutputPackage) : List (String × OutputPackage) :=
  (m.filter fun p => p.1 != k) ++ [(k, v)]

/-- The candidate `output_package` assembled in step 6 of `process`: a dict
with exactly the keys `prediction`, `explanation`, `confidence`, `task_id`. -/
def processPackageCandidate : Candidate :=
  .dict ["prediction", "explanation", "confidence", "task_id"]

/-- Translation of `SynergyEngine.process`.  Steps 1-5 (sanitize, DRS scoring, bias analysis,
optional differential-privacy noise, explanation) call external collaborators;
their results enter here as the parameters `prediction` (the score after any
noise), `expl_confidence` (the explanation's `confidence` entry),
`biases_detected` and `biases_violate` (the bias report).  `task_id` is the
resolved task id (caller-supplied or time-derived) and `now` the clock.  The
audit entries of the veto/pass branches mirror the source's `_audit` calls. -/
def SynergyEngine.process (eng : SynergyEngine) (prediction : ℚ)
    (expl_confidence : Option ℚ) (biases_detected : Nat) (biases_violate : Bool)
    (ctx : Context) (task_id : String) (now : Nat) :
    SynergyEngine × Except CharterViolationError OutputPackage :=
  let audit1 := eng.audit_log ++ ["Input sanitized for task " ++ task_id]
  let audit2 :=
    if biases_violate then
      audit1 ++ ["Bias violations detected in task " ++ task_id]
    else audit1
  match eng.charter_layer.verify_output processPackageCandidate ctx now with
  | (gate', .error e) =>
      ({ eng with
          charter_layer := gate'
          audit_log := audit2 ++ ["Output blocked by CharterLayer"] },
       .error e)
  | (gate', .ok _ver) =>
      let final : OutputPackage :=
        { prediction := prediction, confidence := expl_confidence,
          task_id := task_id, charter_verified := true, timestamp := now,
          biases_detected := biases_detected }
      ({ eng with
          charter_layer := gate'
          audit_log := audit2 ++ ["Output passed CharterLayer verification"]
          active_tasks := updateTask eng.active_tasks task_id final
          system_state := { eng.system_state with last_synthesis := some now } },
       .ok final)

/-- The dict returned by `detect_alignment_drift`. -/
structure DriftReport where
  alignment_score : ℚ
  drift_detected : Bool
  violation_rate : ℚ
  total_checks : Nat
deriving DecidableEq, Repr

/-- Translation of `SynergyEngine.detect_alignment_drift`: recompute the violation rate over
the gate's history, write `alignment_score` and `ethical_drift_detected` into
`system_state`, and return the report. -/
def SynergyEngine.detect_alignment_drift (eng : SynergyEngine) :
    SynergyEngine × DriftReport :=
  let violations := eng.charter_layer.verification_log
  let blocked_count := (violations.filter fun v => !v.passed).length
  let total_checks := violations.length
  let drift_rate : ℚ :=
    if total_checks > 0 then (blocked_count : ℚ) / (total_checks : ℚ) else 0
  let st :=
    { eng.system_state with
        alignment_score := 1 - drift_rate
        ethical_drift_detected := drift_rate > 1 / 10 }
  ({ eng with system_state := st },
   { alignment_score := 1 - drift_rate
     drift_detected := drift_rate > 1 / 10
     violation_rate := drift_rate
     total_checks := total_checks })

/-! ### Helper lemmas about the check loop and the verification record -/

theorem runChecks_fst_length (items : List (String × CheckOutcome)) :
    (runChecks items).1.length = items.length := by
  induction items with
  | nil => rfl
  | cons hd tl ih =>
      obtain ⟨name, o⟩ := hd
      simp only [runChecks, List.length_cons]
      cases o with
      | ok b => cases b <;> simp [ih]
      | fault m => simp [ih]

theorem runChecks_violations_nil_iff (items : List (String × CheckOutcome)) :
    (runChecks items).2 = [] ↔ ((runChecks items).1.all fun r => r.2) = true := by
  induction items with
  | nil => simp [runChecks]
  | cons hd tl ih =>
      obtain ⟨name, o⟩ := hd
      cases o with
      | ok b => cases b <;> simp [runChecks, ih]
      | fault m => simp [runChecks]

theorem runChecks_append (xs ys : List (String × CheckOutcome)) :
    runChecks (xs ++ ys) =
      ((runChecks xs).1 ++ (runChecks ys).1, (runChecks xs).2 ++ (runChecks ys).2) := by
  induction xs with
  | nil => simp [runChecks]
  | cons hd tl ih =>
      obtain ⟨name, o⟩ := hd
      cases o with
      | ok b => cases b <;> simp [runChecks, ih]
      | fault m => simp [runChecks, ih]

theorem filter_length_eq_iff_all {α : Type} (p : α → Bool) (l : List α) :
    ((l.filter p).length = l.length) ↔ (l.all p = true) := by
  induction l with
  | nil => simp
  | cons hd tl ih =>
      by_cases h : p hd = true
      · simp [h, ih]
      · simp only [Bool.not_eq_true] at h
        have hle := List.length_filter_le p tl
        simp [h, List.filter_cons]
        omega

theorem filter_length_le {α : Type} (p : α → Bool) (l : List α) :
    (l.filter p).length ≤ l.length :=
  List.length_filter_le p l

theorem mkVerification_passed_iff_confidence_one
    (items : List (String × CheckOutcome)) (ts : Nat) (h : items ≠ []) :
    (mkVerification items ts).passed = true ↔
      (mkVerification items ts).confidence = 1 := by
  have hlen : (runChecks items).1.length = items.length := runChecks_fst_length items
  have hpos : 0 < (runChecks items).1.length := by
    rw [hlen]
    exact List.length_pos.mpr h
  have hq : ((runChecks items).1.length : ℚ) ≠ 0 := by
    exact_mod_cast Nat.pos_iff_ne_zero.mp hpos
  simp only [mkVerification]
  rw [div_eq_one_iff_eq hq]
  rw [Nat.cast_inj]
  exact (filter_length_eq_iff_all (fun r => r.2) (runChecks items).1).symm

theorem mkVerification_not_passed_confidence_lt_one
    (items : List (String × CheckOutcome)) (ts : Nat) (h : items ≠ [])
    (hp : (mkVerification items ts).passed = false) :
    (mkVerification items ts).confidence < 1 := by
  have hlen : (runChecks items).1.length = items.length := runChecks_fst_length items
  have hpos : 0 < (runChecks items).1.length := by
    rw [hlen]
    exact List.length_pos.mpr h
  have hle := filter_length_le (fun r => r.2) (runChecks items).1
  have hne : ((runChecks items).1.filter fun r => r.2).length ≠
      (runChecks items).1.length := by
    intro heq
    have := (filter_length_eq_iff_all (fun r => r.2) (runChecks items).1).mp heq
    simp only [mkVerification] at hp
    rw [this] at hp
    exact Bool.true_eq_false.mp hp
  have hlt : ((runChecks items).1.filter fun r => r.2).length <
      (runChecks items).1.length := lt_of_le_of_ne hle hne
  simp only [mkVerification]
  rw [div_lt_one (by exact_mod_cast hpos)]
  exact_mod_cast hlt

theorem mkVerification_violations_nil_iff
    (items : List (String × CheckOutcome)) (ts : Nat) :
    (mkVerification items ts).violations = [] ↔
      (mkVerification items ts).passed = true := by
  simp only [mkVerification]
  exact runChecks_violations_nil_iff items

theorem verify_core_result_of_not_passed (gate : CharterLayer)
    (items : List (String × CheckOutcome)) (ts : Nat)
    (hp : (mkVerification items ts).passed = false) :
    (gate.verify_core items ts).2 =
        Except.error ⟨(mkVerification items ts).violations⟩
    ∧ (gate.verify_core items ts).1.verification_log =
        gate.verification_log ++ [mkVerification items ts] := by
  simp [CharterLayer.verify_core, hp]

deriving instance DecidableEq for Except

/-! ### Claim theorems -/

/-- C1: for every candidate and context, `verify_output` returns the created
verification record exactly when all five principle checks pass, and otherwise
raises `CharterViolationError` carrying the record's violation-reason list; in
particular the mapping with keys `decision`/`amount` under a context with
`is_complex_decision` set raises, because the TRANSPARENCY check fails. -/
theorem charter_verify_pass_or_veto :
    (∀ (gate : CharterLayer) (c : Candidate) (ctx : Context) (ts : Nat),
      (gate.verify_output c ctx ts).2 =
        (if (check_honesty c ctx && check_dignity c ctx && check_fairness c ctx
              && check_transparency c ctx && check_safety c ctx) = true then
          Except.ok (mkVerification (principleChecks c ctx) ts)
        else
          Except.error ⟨(mkVerification (principleChecks c ctx) ts).violations⟩))
    ∧ (CharterLayer.init.verify_output (.dict ["decision", "amount"])
          { is_complex_decision := true } 0).2 =
        Except.error ⟨["Violated: transparency"]⟩
    ∧ check_transparency (.dict ["decision", "amount"])
        { is_complex_decision := true } = false := by
  refine ⟨?_, by decide, by decide⟩
  intro gate c ctx ts
  cases h1 : check_honesty c ctx <;> cases h2 : check_dignity c ctx <;>
    cases h3 : check_fairness c ctx <;> cases h4 : check_transparency c ctx <;>
    cases h5 : check_safety c ctx <;>
    simp [CharterLayer.verify_output, CharterLayer.verify_core, mkVerification,
      runChecks, principleChecks, h1, h2, h3, h4, h5]

/-- C3: every `verify_output` call appends exactly one record to the gate's
history, pass or fail; the prior history is preserved as a prefix (no record is
removed or mutated), and two calls on a fresh gate leave a history of length
exactly two. -/
theorem verify_always_appends_record :
    (∀ (gate : CharterLayer) (c : Candidate) (ctx : Context) (ts : Nat),
      (gate.verify_output c ctx ts).1.verification_log =
        gate.verification_log ++ [mkVerification (principleChecks c ctx) ts])
    ∧ (∀ (gate : CharterLayer) (c : Candidate) (ctx : Context) (ts : Nat),
      (gate.verify_output c ctx ts).1.verification_log.take
          gate.verification_log.length = gate.verification_log)
    ∧ (∀ (c1 : Candidate) (ctx1 : Context) (ts1 : Nat)
        (c2 : Candidate) (ctx2 : Context) (ts2 : Nat),
      (((CharterLayer.init.verify_output c1 ctx1 ts1).1.verify_output
          c2 ctx2 ts2).1.verification_log.length) = 2) := by
  have happ : ∀ (gate : CharterLayer) (c : Candidate) (ctx : Context) (ts : Nat),
      (gate.verify_output c ctx ts).1.verification_log =
        gate.verification_log ++ [mkVerification (principleChecks c ctx) ts] := by
    intro gate c ctx ts
    cases hp : (mkVerification (principleChecks c ctx) ts).passed <;>
      simp [CharterLayer.verify_output, CharterLayer.verify_core, hp]
  refine ⟨happ, ?_, ?_⟩
  · intro gate c ctx ts
    rw [happ]
    exact List.take_left gate.verification_log _
  · intro c1 ctx1 ts1 c2 ctx2 ts2
    rw [happ, happ]
    simp [CharterLayer.init]

/-- C5: for every textual candidate, FAIRNESS fails iff the lowercased text
contains both a discriminatory phrase and a protected-attribute token; a
discriminatory phrase without any protected-attribute token passes. -/
theorem fairness_fails_iff_cooccurrence :
    (∀ (s : String) (ctx : Context),
      check_fairness (.text s) ctx = false ↔
        ((discriminatory_phrases.any fun p => strContains (lowerStr s) p) = true
          ∧ (protected_attributes.any fun a => strContains (lowerStr s) a) = true))
    ∧ (∀ (s : String) (ctx : Context),
      (discriminatory_phrases.any fun p => strContains (lowerStr s) p) = true →
      (protected_attributes.any fun a => strContains (lowerStr s) a) = false →
      check_fairness (.text s) ctx = true) := by
  have hscan : ∀ (lower : String) (attrs ps : List String),
      fairnessScan lower attrs ps =
        !((ps.any fun p => strContains lower p)
            && (attrs.any fun a => strContains lower a)) := by
    intro lower attrs ps
    induction ps with
    | nil => simp [fairnessScan]
    | cons p ps ih =>
        simp only [fairnessScan, List.any_cons]
        cases hp : strContains lower p <;>
          cases ha : attrs.any fun a => strContains lower a <;>
          simp [hp, ha, ih]
  constructor
  · intro s ctx
    simp [check_fairness, hscan]
  · intro s ctx hph hat
    simp [check_fairness, hscan, hph, hat]

/-- C5 witness: "unfit" is a discriminatory phrase, the sentence holds no
protected-attribute token, and the FAIRNESS check passes on it. -/
theorem fairness_fails_iff_cooccurrence_witness :
    check_fairness (.text "applicants deemed unfit will be rejected") {} = true :=
  fairness_fails_iff_cooccurrence.2
    "applicants deemed unfit will be rejected" {} (by decide) (by decide)

/-- Formalization of the claimed exemption condition of NO_DECEPTION: the
candidate exposes an explicit confidence or uncertainty indicator, as an
attribute or as a named field of a mapping. -/
def exposesConfidenceIndicator (c : Candidate) : Bool :=
  c.hasattr "confidence" || c.hasattr "uncertainty"
    || c.dictHasKey "confidence" || c.dictHasKey "uncertainty"

/-- C6: a candidate exposing a confidence/uncertainty indicator always passes
NO_DECEPTION, whatever its wording; a textual candidate (which can expose no
such indicator) containing a deception marker fails it. -/
theorem honesty_indicator_exempts :
    (∀ (c : Candidate) (ctx : Context),
      exposesConfidenceIndicator c = true → check_honesty c ctx = true)
    ∧ (∀ (s : String) (ctx : Context),
      exposesConfidenceIndicator (.text s) = false
        ∧ ((deception_markers.any fun m =>
              strContains (lowerStr s) (lowerStr m)) = true →
            check_honesty (.text s) ctx = false)) := by
  constructor
  · intro c ctx h
    cases c with
    | text s => simp [exposesConfidenceIndicator, Candidate.hasattr,
        Candidate.dictHasKey] at h
    | dict keys => simp [check_honesty, Candidate.hasattr]
    | obj attrs =>
        simp only [exposesConfidenceIndicator, Candidate.dictHasKey,
          Bool.or_false] at h
        simp [check_honesty, h]
  · intro s ctx
    refine ⟨rfl, ?_⟩
    intro hm
    simp [check_honesty, Candidate.hasattr, hm]

/-- C6 witness: an object exposing a `confidence` attribute passes NO_DECEPTION
though its context is empty, and the marker "guaranteed" fails a plain text. -/
theorem honesty_indicator_exempts_witness :
    check_honesty (.obj ["confidence"]) {} = true
    ∧ check_honesty (.text "success guaranteed") {} = false :=
  ⟨honesty_indicator_exempts.1 (.obj ["confidence"]) {} (by decide),
   (honesty_indicator_exempts.2 "success guaranteed" {}).2 (by decide)⟩

/-- C4 counterexample: in a context where `requires_consent` is true and
`consent_given` is not, but no `user_id` is supplied, the HUMAN_DIGNITY check
passes — the claim says it must fail for every such context.  The source only
enters the consent branch when `context.get('user_id')` is truthy. -/
theorem dignity_consent_counterexample :
    (({ requires_consent := true } : Context)).requires_consent = true
    ∧ (({ requires_consent := true } : Context)).consent_given = false
    ∧ check_dignity (.text "hello") ({ requires_consent := true } : Context) = true :=
  ⟨rfl, rfl, by decide⟩

/-- C4 (amended): for every candidate and every context in which `user_id` is
truthy, `requires_consent` is true and `consent_given` is not true, the
HUMAN_DIGNITY check fails regardless of the candidate's content; and
independently, every textual candidate whose lowercased text contains a
sensitive-data keyword fails HUMAN_DIGNITY. -/
theorem dignity_consent_requires_user_id :
    (∀ (c : Candidate) (ctx : Context),
      ctx.user_id = true → ctx.requires_consent = true →
      ctx.consent_given = false → check_dignity c ctx = false)
    ∧ (∀ (s : String) (ctx : Context) (k : String),
      k ∈ sensitive_keywords → strContains (lowerStr s) k = true →
      check_dignity (.text s) ctx = false) := by
  constructor
  · intro c ctx h1 h2 h3
    cases c with
    | text s =>
        simp only [check_dignity, h1, h2, h3]
        cases hscan : sensitive_keywords.any fun k => strContains (lowerStr s) k <;>
          simp [hscan]
    | dict keys => simp [check_dignity, h1, h2, h3]
    | obj attrs => simp [check_dignity, h1, h2, h3]
  · intro s ctx k hk hc
    have hscan : (sensitive_keywords.any fun k => strContains (lowerStr s) k) = true :=
      List.any_eq_true.mpr ⟨k, hk, hc⟩
    simp [check_dignity, hscan]

/-- C4 witness: with a truthy `user_id`, consent required and not given, the
check fails on an innocuous text; and a text containing "password" fails. -/
theorem dignity_consent_requires_user_id_witness :
    check_dignity (.text "hello")
        ⟨true, true, false, false, 0, true, false, false⟩ = false
    ∧ check_dignity (.text "the Password is 123") {} = false :=
  ⟨dignity_consent_requires_user_id.1 (.text "hello")
      ⟨true, true, false, false, 0, true, false, false⟩ rfl rfl rfl,
   dignity_consent_requires_user_id.2 "the Password is 123" {} "password"
      (by decide) (by decide)⟩

/-- C7: the record's confidence always equals the number of passing principles
divided by the number checked (5), recomputed from its own per-principle result
map; the record the gate appends is exactly that record; and the sample
sentence passes with confidence exactly 1. -/
theorem record_confidence_recomputed :
    (∀ (gate : CharterLayer) (c : Candidate) (ctx : Context) (ts : Nat),
      (mkVerification (principleChecks c ctx) ts).confidence =
        (((mkVerification (principleChecks c ctx) ts).principle_results.filter
            fun r => r.2).length : ℚ) /
          ((mkVerification (principleChecks c ctx) ts).principle_results.length : ℚ)
      ∧ (mkVerification (principleChecks c ctx) ts).principle_results.length = 5
      ∧ (gate.verify_output c ctx ts).1.verification_log.getLast? =
          some (mkVerification (principleChecks c ctx) ts))
    ∧ (CharterLayer.init.verify_output
          (.text "This is a test output with confidence level 0.85") {} 0).2 =
        Except.ok (mkVerification (principleChecks
          (.text "This is a test output with confidence level 0.85") {}) 0)
    ∧ (mkVerification (principleChecks
          (.text "This is a test output with confidence level 0.85") {}) 0).passed
        = true
    ∧ (mkVerification (principleChecks
          (.text "This is a test output with confidence level 0.85") {}) 0).confidence
        = 1 := by
  refine ⟨?_, by rfl, by decide, ?_⟩
  · intro gate c ctx ts
    refine ⟨rfl, ?_, ?_⟩
    · simp only [mkVerification]
      rw [runChecks_fst_length]
      rfl
    · cases hp : (mkVerification (principleChecks c ctx) ts).passed <;>
        simp [CharterLayer.verify_output, CharterLayer.verify_core, hp]
  · have hpc : principleChecks
        (.text "This is a test output with confidence level 0.85") {} =
        [("no_deception", .ok true), ("human_dignity", .ok true),
         ("fairness", .ok true), ("transparency", .ok true),
         ("safety", .ok true)] := by decide
    rw [hpc]
    simp only [mkVerification, runChecks]
    norm_num

/-- C9: a predicate fault inside one principle check is converted, fail-closed,
into a `false` result for that principle with a `Check failed` reason recorded
in the violations list; every other principle's outcome is still evaluated and
recorded in order, and `verify_core` only ever surfaces the aggregate
`CharterViolationError` (its result type rules out propagating the fault),
still appending the record to the history. -/
theorem predicate_fault_fail_closed :
    ∀ (pre post : List (String × CheckOutcome)) (name msg : String)
      (ts : Nat) (gate : CharterLayer),
      (mkVerification (pre ++ [(name, .fault msg)] ++ post) ts).principle_results =
          (runChecks pre).1 ++ [(name, false)] ++ (runChecks post).1
      ∧ (mkVerification (pre ++ [(name, .fault msg)] ++ post) ts).violations =
          (runChecks pre).2 ++ ["Check failed: " ++ name] ++ (runChecks post).2
      ∧ (mkVerification (pre ++ [(name, .fault msg)] ++ post) ts).passed = false
      ∧ (gate.verify_core (pre ++ [(name, .fault msg)] ++ post) ts).2 =
          Except.error
            ⟨(mkVerification (pre ++ [(name, .fault msg)] ++ post) ts).violations⟩
      ∧ (gate.verify_core (pre ++ [(name, .fault msg)] ++ post) ts).1.verification_log
          = gate.verification_log
              ++ [mkVerification (pre ++ [(name, .fault msg)] ++ post) ts] := by
  intro pre post name msg ts gate
  have hmid : runChecks [(name, CheckOutcome.fault msg)] =
      ([(name, false)], ["Check failed: " ++ name]) := rfl
  have happ : runChecks (pre ++ [(name, CheckOutcome.fault msg)] ++ post) =
      ((runChecks pre).1 ++ [(name, false)] ++ (runChecks post).1,
       (runChecks pre).2 ++ ["Check failed: " ++ name] ++ (runChecks post).2) := by
    rw [runChecks_append, runChecks_append, hmid]
  have hpassed : (mkVerification (pre ++ [(name, .fault msg)] ++ post) ts).passed
      = false := by
    simp only [mkVerification, happ]
    rw [List.all_eq_false]
    refine ⟨(name, false), ?_, by simp⟩
    simp
  refine ⟨?_, ?_, hpassed,
    (verify_core_result_of_not_passed gate _ ts hpassed).1,
    (verify_core_result_of_not_passed gate _ ts hpassed).2⟩
  · simp only [mkVerification, happ]
  · simp only [mkVerification, happ]

/-- C10: every record the gate appends satisfies the invariant: it passed iff
its confidence is exactly 1; a failed record has confidence strictly below 1
and a non-empty violations list; a passed record has no violations. -/
theorem record_passed_iff_confidence_one :
    ∀ (gate : CharterLayer) (c : Candidate) (ctx : Context) (ts : Nat),
      ((gate.verify_output c ctx ts).1.verification_log =
          gate.verification_log ++ [mkVerification (principleChecks c ctx) ts])
      ∧ ((mkVerification (principleChecks c ctx) ts).passed = true ↔
          (mkVerification (principleChecks c ctx) ts).confidence = 1)
      ∧ ((mkVerification (principleChecks c ctx) ts).passed = false →
          (mkVerification (principleChecks c ctx) ts).confidence < 1
          ∧ (mkVerification (principleChecks c ctx) ts).violations ≠ [])
      ∧ ((mkVerification (principleChecks c ctx) ts).passed = true →
          (mkVerification (principleChecks c ctx) ts).violations = []) := by
  intro gate c ctx ts
  have hne : principleChecks c ctx ≠ [] := by simp [principleChecks]
  refine ⟨?_, mkVerification_passed_iff_confidence_one _ ts hne, ?_, ?_⟩
  · cases hp : (mkVerification (principleChecks c ctx) ts).passed <;>
      simp [CharterLayer.verify_output, CharterLayer.verify_core, hp]
  · intro hp
    refine ⟨mkVerification_not_passed_confidence_lt_one _ ts hne hp, ?_⟩
    intro hv
    have := (mkVerification_violations_nil_iff (principleChecks c ctx) ts).mp hv
    rw [this] at hp
    exact Bool.true_eq_false.mp hp
  · intro hp
    exact (mkVerification_violations_nil_iff (principleChecks c ctx) ts).mpr hp

/-- C10 witness: a text containing "guaranteed" yields a failed record with
confidence below 1 and a non-empty violations list; an innocuous text yields a
passed record with no violations. -/
theorem record_passed_iff_confidence_one_witness :
    ((mkVerification (principleChecks (.text "success guaranteed") {}) 0).confidence < 1
      ∧ (mkVerification (principleChecks (.text "success guaranteed") {}) 0).violations ≠ [])
    ∧ (mkVerification (principleChecks (.text "hello world") {}) 0).violations = [] :=
  ⟨(record_passed_iff_confidence_one ⟨[]⟩ (.text "success guaranteed") {} 0).2.2.1
      (by decide),
   (record_passed_iff_confidence_one ⟨[]⟩ (.text "hello world") {} 0).2.2.2
      (by decide)⟩

/-- C2: when `process` ends in a veto, the engine's task map has no new entry,
`system_state.last_synthesis` keeps its pre-call value, the block is recorded
as the final audit-trail entry, and the gate's `CharterViolationError` is
re-raised verbatim to the caller. -/
theorem process_veto_preserves_tasks :
    ∀ (eng : SynergyEngine) (prediction : ℚ) (conf : Option ℚ)
      (bd : Nat) (bv : Bool) (ctx : Context) (task_id : String) (now : Nat)
      (e : CharterViolationError),
      (eng.process prediction conf bd bv ctx task_id now).2 = Except.error e →
      (eng.process prediction conf bd bv ctx task_id now).1.active_tasks =
          eng.active_tasks
      ∧ (eng.process prediction conf bd bv ctx task_id
            now).1.system_state.last_synthesis =
          eng.system_state.last_synthesis
      ∧ (eng.process prediction conf bd bv ctx task_id now).1.audit_log =
          eng.audit_log ++ ["Input sanitized for task " ++ task_id]
            ++ (if bv then ["Bias violations detected in task " ++ task_id] else [])
            ++ ["Output blocked by CharterLayer"]
      ∧ (eng.charter_layer.verify_output processPackageCandidate ctx now).2 =
          Except.error e := by
  intro eng prediction conf bd bv ctx task_id now e h
  rcases hv : eng.charter_layer.verify_output processPackageCandidate ctx now with
    ⟨gate', res⟩
  cases res with
  | ok v =>
      rw [SynergyEngine.process, hv] at h
      simp at h
  | error e' =>
      rw [SynergyEngine.process, hv] at h
      simp only at h
      have he : e' = e := by
        simpa using h
      subst he
      rw [SynergyEngine.process, hv]
      refine ⟨rfl, rfl, ?_, rfl⟩
      cases bv <;> simp

/-- C2 witness: a context that requires consent from an identified user without
granting it makes the gate veto the output package; on that veto the fresh
engine's task map stays empty, `last_synthesis` stays `none`, and the audit
trail ends with the block entry. -/
theorem process_veto_preserves_tasks_witness :
    ((⟨⟨[]⟩, [], ⟨1, 1, false, none⟩, []⟩ : SynergyEngine).process 0 none 0 false
        ⟨true, true, false, false, 0, true, false, false⟩ "t1" 0).1.active_tasks =
      ([] : List (String × OutputPackage))
    ∧ ((⟨⟨[]⟩, [], ⟨1, 1, false, none⟩, []⟩ : SynergyEngine).process 0 none 0 false
        ⟨true, true, false, false, 0, true, false, false⟩ "t1"
        0).1.system_state.last_synthesis = none
    ∧ ((⟨⟨[]⟩, [], ⟨1, 1, false, none⟩, []⟩ : SynergyEngine).process 0 none 0 false
        ⟨true, true, false, false, 0, true, false, false⟩ "t1" 0).1.audit_log =
      [] ++ ["Input sanitized for task " ++ "t1"] ++ (if false then
          ["Bias violations detected in task " ++ "t1"] else [])
        ++ ["Output blocked by CharterLayer"] := by
  have h := process_veto_preserves_tasks
    (⟨⟨[]⟩, [], ⟨1, 1, false, none⟩, []⟩ : SynergyEngine) 0 none 0 false
    ⟨true, true, false, false, 0, true, false, false⟩ "t1" 0
    ⟨["Violated: human_dignity"]⟩ (by decide)
  exact ⟨h.1, h.2.1, h.2.2.1⟩

/-- C8: `detect_alignment_drift` reports `violation_rate` as the failed
fraction of the gate's history (0 on empty history), `alignment_score` as its
complement, `drift_detected` exactly when the rate exceeds 1/10; it writes
those values into `system_state`, and an immediate second call returns the same
report and leaves the engine unchanged. -/
theorem drift_report_correct_and_idempotent :
    ∀ (eng : SynergyEngine),
      (eng.detect_alignment_drift.2.violation_rate =
        if 0 < eng.charter_layer.verification_log.length then
          (((eng.charter_layer.verification_log.filter fun v =>
              !v.passed).length : ℚ)) /
            ((eng.charter_layer.verification_log.length : ℚ))
        else 0)
      ∧ eng.detect_alignment_drift.2.total_checks =
          eng.charter_layer.verification_log.length
      ∧ eng.detect_alignment_drift.2.alignment_score =
          1 - eng.detect_alignment_drift.2.violation_rate
      ∧ (eng.detect_alignment_drift.2.drift_detected = true ↔
          eng.detect_alignment_drift.2.violation_rate > 1 / 10)
      ∧ eng.detect_alignment_drift.1.system_state.alignment_score =
          eng.detect_alignment_drift.2.alignment_score
      ∧ eng.detect_alignment_drift.1.system_state.ethical_drift_detected =
          eng.detect_alignment_drift.2.drift_detected
      ∧ eng.detect_alignment_drift.1.detect_alignment_drift =
          (eng.detect_alignment_drift.1, eng.detect_alignment_drift.2) := by
  intro eng
  obtain ⟨charter, tasks, st, log⟩ := eng
  obtain ⟨al, co, dr, ls⟩ := st
  refine ⟨rfl, rfl, rfl, ?_, rfl, rfl, ?_⟩
  · simp [SynergyEngine.detect_alignment_drift, decide_eq_true_iff]
  · simp [SynergyEngine.detect_alignment_drift]
